import Mathlib

/-!
Verification of the jitsu profiles functions and the generic self-refreshing
in-memory store (`createInMemoryStore`), shallowly embedded from
`libs/core-functions/src/functions/profiles-functions.ts`.

The first part embeds the hashing helpers (`hash("sha256", v)` via a full
SHA-256 implementation over `Nat`, and `int32Hash`).  The second part embeds
the store: its mutable state becomes an explicit record, the asynchronous
event loop becomes a step relation whose events are the completion of the
cold load, the start and completion of a scheduled refresh, `stop()` calls
and (state-neutral) `get()` calls.  Dates are modelled as `Nat` timestamps,
JavaScript exceptions as `Option String` / `Except String` values, and the
shared `instancePromise` as an explicit promise state.
-/

set_option maxHeartbeats 1000000

namespace InMem

/-- 32-bit truncation, i.e. JavaScript-style unsigned 32-bit arithmetic. -/
def w32 (n : Nat) : Nat := n % 4294967296

/-- Rotate the 32-bit word `x` right by `k` bit positions. -/
def rotr (k x : Nat) : Nat := w32 ((x >>> k) ||| (x <<< (32 - k)))

/-- SHA-256 round constants. -/
def sha256K : List Nat :=
  [1116352408, 1899447441, 3049323471, 3921009573, 961987163,
   1508970993, 2453635748, 2870763221, 3624381080, 310598401,
   607225278, 1426881987, 1925078388, 2162078206, 2614888103,
   3248222580, 3835390401, 4022224774, 264347078, 604807628,
   770255983, 1249150122, 1555081692, 1996064986, 2554220882,
   2821834349, 2952996808, 3210313671, 3336571891, 3584528711,
   113926993, 338241895, 666307205, 773529912, 1294757372,
   1396182291, 1695183700, 1986661051, 2177026350, 2456956037,
   2730485921, 2820302411, 3259730800, 3345764771, 3516065817,
   3600352804, 4094571909, 275423344, 430227734, 506948616,
   659060556, 883997877, 958139571, 1322822218, 1537002063,
   1747873779, 1955562222, 2024104815, 2227730452, 2361852424,
   2428436474, 2756734187, 3204031479, 3329325298]

/-- SHA-256 initial hash value. -/
def initHash : Nat × Nat × Nat × Nat × Nat × Nat × Nat × Nat :=
  (1779033703,
   3144134277,
   1013904242,
   2773480762,
   1359893119,
   2600822924,
   528734635,
   1541459225)

/-- UTF-8 encoding of a single code point, as `crypto.createHash(...).update(value)`
uses the utf-8 encoding of the input string. -/
def utf8Bytes (c : Nat) : List Nat :=
  if c < 0x80 then [c]
  else if c < 0x800 then [0xC0 ||| (c >>> 6), 0x80 ||| (c &&& 0x3F)]
  else if c < 0x10000 then
    [0xE0 ||| (c >>> 12), 0x80 ||| ((c >>> 6) &&& 0x3F), 0x80 ||| (c &&& 0x3F)]
  else
    [0xF0 ||| (c >>> 18), 0x80 ||| ((c >>> 12) &&& 0x3F), 0x80 ||| ((c >>> 6) &&& 0x3F),
     0x80 ||| (c &&& 0x3F)]

/-- UTF-8 bytes of a string. -/
def stringBytes (s : String) : List Nat :=
  (s.toList.map (fun c => utf8Bytes c.toNat)).flatten

/-- SHA-256 message padding: append 0x80, zero bytes up to 56 mod 64, then the
bit length as 8 big-endian bytes. -/
def sha256pad (msg : List Nat) : List Nat :=
  let ml := 8 * msg.length
  let k := (120 - (msg.length + 1) % 64) % 64
  msg ++ [128] ++ List.replicate k 0 ++
    (List.range 8).map (fun i => (ml >>> (8 * (7 - i))) % 256)

/-- Split a byte list into 64-byte chunks. -/
def chunkBytes (l : List Nat) : List (List Nat) :=
  if h : l = [] then []
  else l.take 64 :: chunkBytes (l.drop 64)
termination_by l.length
decreasing_by
  have hp : 0 < l.length := List.length_pos.mpr h
  simp [List.length_drop]
  omega

def smallSigma0 (x : Nat) : Nat := rotr 7 x ^^^ rotr 18 x ^^^ (x >>> 3)

def smallSigma1 (x : Nat) : Nat := rotr 17 x ^^^ rotr 19 x ^^^ (x >>> 10)

/-- SHA-256 message schedule for a 64-byte chunk. -/
def msgW (chunk : List Nat) (i : Nat) : Nat :=
  if h : i < 16 then
    ((chunk.getD (4 * i) 0) <<< 24) ||| ((chunk.getD (4 * i + 1) 0) <<< 16) |||
      ((chunk.getD (4 * i + 2) 0) <<< 8) ||| chunk.getD (4 * i + 3) 0
  else
    w32 (smallSigma1 (msgW chunk (i - 2)) + msgW chunk (i - 7) +
      smallSigma0 (msgW chunk (i - 15)) + msgW chunk (i - 16))
termination_by i
decreasing_by all_goals omega

/-- One round of the SHA-256 compression function. -/
def sha256Round (chunk : List Nat) (st : Nat × Nat × Nat × Nat × Nat × Nat × Nat × Nat)
    (i : Nat) : Nat × Nat × Nat × Nat × Nat × Nat × Nat × Nat :=
  match st with
  | (a, b, c, d, e, f, g, h) =>
    let s1 := rotr 6 e ^^^ rotr 11 e ^^^ rotr 25 e
    let ch := (e &&& f) ^^^ ((e ^^^ 4294967295) &&& g)
    let t1 := w32 (h + s1 + ch + sha256K.getD i 0 + msgW chunk i)
    let s0 := rotr 2 a ^^^ rotr 13 a ^^^ rotr 22 a
    let mj := (a &&& b) ^^^ (a &&& c) ^^^ (b &&& c)
    let t2 := w32 (s0 + mj)
    (w32 (t1 + t2), a, b, c, w32 (d + t1), e, f, g)

/-- Process one 64-byte chunk. -/
def processChunk (st : Nat × Nat × Nat × Nat × Nat × Nat × Nat × Nat) (chunk : List Nat) :
    Nat × Nat × Nat × Nat × Nat × Nat × Nat × Nat :=
  match st, (List.range 64).foldl (sha256Round chunk) st with
  | (h0, h1, h2, h3, h4, h5, h6, h7), (a, b, c, d, e, f, g, h) =>
    (w32 (h0 + a), w32 (h1 + b), w32 (h2 + c), w32 (h3 + d),
     w32 (h4 + e), w32 (h5 + f), w32 (h6 + g), w32 (h7 + h))

/-- The eight 32-bit words of the SHA-256 digest of a string. -/
def sha256words (s : String) : Nat × Nat × Nat × Nat × Nat × Nat × Nat × Nat :=
  (chunkBytes (sha256pad (stringBytes s))).foldl processChunk initHash

/-- Lower-case hexadecimal digits, as `Number.prototype.toString(16)` and the
hex digest use them. -/
def hexDigits : List Char := ("0123456789abcdef").toList

def hexDigitChar (n : Nat) : Char := hexDigits.getD (n % 16) '0'

/-- The 8 hex characters of a 32-bit word, most significant nibble first. -/
def wordHexChars (w : Nat) : List Char :=
  [hexDigitChar (w >>> 28), hexDigitChar (w >>> 24), hexDigitChar (w >>> 20),
   hexDigitChar (w >>> 16), hexDigitChar (w >>> 12), hexDigitChar (w >>> 8),
   hexDigitChar (w >>> 4), hexDigitChar w]

def digestChars : Nat × Nat × Nat × Nat × Nat × Nat × Nat × Nat → List Char
  | (a, b, c, d, e, f, g, h) =>
    wordHexChars a ++ (wordHexChars b ++ (wordHexChars c ++ (wordHexChars d ++
      (wordHexChars e ++ (wordHexChars f ++ (wordHexChars g ++ wordHexChars h))))))

/-- `hash("sha256", s)` from the source: the hex digest of the SHA-256 of `s`. -/
def sha256hex (s : String) : String := String.mk (digestChars (sha256words s))

/-- `idHash32MaxValue` from the source. -/
def idHash32MaxValue : Nat := 2147483647

def isHexDigitChar (c : Char) : Bool :=
  ('0' ≤ c && c ≤ '9') || ('a' ≤ c && c ≤ 'f') || ('A' ≤ c && c ≤ 'F')

def hexVal (c : Char) : Nat :=
  if '0' ≤ c ∧ c ≤ '9' then c.toNat - 48
  else if 'a' ≤ c ∧ c ≤ 'f' then c.toNat - 87
  else if 'A' ≤ c ∧ c ≤ 'F' then c.toNat - 55
  else 0

/-- JavaScript `parseInt(s, 16)` on a string that carries no leading whitespace
or sign: parse the longest hex-digit prefix; an empty prefix yields `NaN`,
modelled as `none`. -/
def jsParseIntHex (cs : List Char) : Option Nat :=
  let ds := cs.takeWhile isHexDigitChar
  if ds.isEmpty then none
  else some (ds.foldl (fun acc c => 16 * acc + hexVal c) 0)

/-- `int32Hash` from the source:
`parseInt(hash("sha256", value).substring(0, 8), 16) % idHash32MaxValue`.
A `NaN` outcome of `parseInt` is modelled as `none`. -/
def int32Hash (value : String) : Option Nat :=
  match jsParseIntHex ((sha256hex value).toList.take 8) with
  | none => none
  | some n => some (n % idHash32MaxValue)

/-! ## The in-memory store

`createInMemoryStore` closes over six mutable variables (`status`, `instance`,
`lastRefresh`, `lastModified`, `stopping`, `intervalToClear`) and one promise
(`instancePromise`).  They become the fields of `StoreState`; the promise is
explicit so that the fate of callers suspended in `get()` is observable.
The extra bookkeeping fields record facts the event loop makes implicit:
`schedulerArmed` (whether `scheduleStoreRefresh()` has run), `coldPending`
(whether the construction-time `definition.refresh()` call is still in
flight), `inflight` (scheduled refresh calls started but not yet completed),
`timerPending` (whether, in the zero/negative-interval `loop` mode, a 1 ms
`setTimeout` of the refresh is currently scheduled — crucially, its callback
invokes `refresh()` WITHOUT rechecking the stopping flag, and `stop()`
cancels no timer in that mode because `intervalToClear` is never assigned
there) and `fetchLog` (the list of arguments passed to `definition.refresh`,
newest last; the construction call passes no argument, a scheduled tick
passes the current `lastModified`). -/

/-- The store status union type of the source. -/
inductive Status where
  | ok
  | initializing
  | outdated
  | failed
  | stopped
deriving DecidableEq, Repr

/-- The state of `instancePromise`. -/
inductive PromiseState (T : Type) where
  | pending
  | resolved (v : T)
  | rejected (msg : String)
deriving DecidableEq, Repr

/-- One outcome of the caller-supplied `definition.refresh`:
`{ lastModified; store }`, the sentinel string `"not_modified"`, or a
rejection carrying an error message. -/
inductive RefreshOutcome (T : Type) where
  | fresh (lastModified : Option Nat) (store : T)
  | notModified
  | failure (err : String)
deriving DecidableEq, Repr

/-- `StoreDefinition` of the source, minus the `refresh` function itself
(whose outcomes are supplied as event data of the step relation).
`serializer`/`deserializer` stand for the configured codec, or the default
`JSON.stringify` / `JSON.parse` when none is configured; a `none` result
models the codec throwing.  `localDir = none` models an absent `localDir`. -/
structure StoreDefinition (T : Type) where
  refreshIntervalMillis : Int
  name : String
  serializer : T → Option String
  deserializer : String → Option T
  localDir : Option String

/-- The mutable state owned by one `createInMemoryStore` instance. -/
structure StoreState (T : Type) where
  status : Status
  instanceVal : Option T
  lastRefresh : Option Nat
  lastModified : Option Nat
  stopping : Bool
  schedulerArmed : Bool
  coldPending : Bool
  inflight : Nat
  timerPending : Bool
  promise : PromiseState T
  fetchLog : List (Option Nat)
deriving DecidableEq, Repr

/-- The state right after `createInMemoryStore` runs: all variables at their
initial values, and the promise executor has already invoked
`definition.refresh()` once, with no argument. -/
def initialState (T : Type) : StoreState T :=
  { status := Status.initializing
    instanceVal := none
    lastRefresh := none
    lastModified := none
    stopping := false
    schedulerArmed := false
    coldPending := true
    inflight := 0
    timerPending := false
    promise := PromiseState.pending
    fetchLog := [none] }

/-- `saveLocalCache`: with no `localDir` it does nothing.  Otherwise
`fs.mkdirSync` (modelled by `mkdirErr`) and the serializer run synchronously
and their exceptions propagate to the caller, while the asynchronous
`fs.writeFile` reports its error (`writeErr`) to a callback that only logs
it, so `writeErr` cannot influence the result. -/
def saveLocalCache {T : Type} (d : StoreDefinition T) (inst : T)
    (mkdirErr writeErr : Option String) : Except String Unit :=
  match d.localDir with
  | none => Except.ok ()
  | some _ =>
    match mkdirErr with
    | some e => Except.error e
    | none =>
      match d.serializer inst with
      | none => Except.error "Converting circular structure to JSON"
      | some _ =>
        match writeErr with
        | _ => Except.ok ()

/-- `loadFromCache`: with no `localDir` only a warning is logged.  Otherwise
the cache file is read (`fileContents = none` models `readFileSync` throwing)
and deserialized (`none` models the deserializer throwing); every error is
swallowed and reported as "no snapshot", and the file's mtime is returned as
`updateDate`. -/
def loadFromCache {T : Type} (d : StoreDefinition T) (fileContents : Option String)
    (mtime : Nat) : Option (Nat × T) :=
  match d.localDir with
  | none => none
  | some _ =>
    match fileContents with
    | none => none
    | some str =>
      match d.deserializer str with
      | none => none
      | some v => some (mtime, v)

/-- The rejection message built in the cold-load `catch` handler:
a new `Error` wrapping the original error message. -/
def coldErrMsg (name e : String) : String :=
  ("Failed to initialize store " ++ name ++ ". Initial load failed with ") ++
    (e ++ " and no local cache found")

/-- The `loop()` body of `scheduleStoreRefresh`'s zero/negative-interval
mode: if the stopping flag is set, nothing further is scheduled; otherwise a
1 ms `setTimeout` of the refresh is armed (`timerPending`).  With a strictly
positive interval `loop` is never run and nothing changes. -/
def loopSchedule {T : Type} (d : StoreDefinition T) (s : StoreState T) : StoreState T :=
  { s with
    timerPending :=
      if d.refreshIntervalMillis ≤ 0 then
        (if s.stopping = true then s.timerPending else true)
      else s.timerPending }

/-- `scheduleStoreRefresh()`: with a strictly positive interval it installs
the `setInterval`, whose callback checks `stopping` on each tick; otherwise
it starts the continuous `loop`, which immediately schedules the first
timeout unless the store is already stopping.  Either way the scheduler is
armed. -/
def scheduleStoreRefresh {T : Type} (d : StoreDefinition T) (s : StoreState T) : StoreState T :=
  loopSchedule d { s with schedulerArmed := true }

/-- The cold-load `catch` handler: try the local cache; on a hit store its
value, stamp `lastRefresh` with the file date, set status `outdated`, call
`scheduleStoreRefresh()` and resolve the promise; on a miss set status
`failed` and reject the promise with a new wrapping error. -/
def applyColdCatch {T : Type} (d : StoreDefinition T) (e : String)
    (cache : Option (Nat × T)) (s : StoreState T) : StoreState T :=
  match cache with
  | none =>
    { s with
      coldPending := false
      status := Status.failed
      promise := PromiseState.rejected (coldErrMsg d.name e) }
  | some (updateDate, v) =>
    scheduleStoreRefresh d
      { s with
        coldPending := false
        instanceVal := some v
        lastRefresh := some updateDate
        status := Status.outdated
        promise := PromiseState.resolved v }

/-- Completion of the construction-time `definition.refresh()` call.  On a
fresh value the `then` handler assigns `lastModified` (unconditionally) and
`instance`, then calls `saveLocalCache`; if that throws the exception falls
through to the `catch` handler, else status becomes `ok`, `lastRefresh` is
stamped, the scheduler is armed and the promise resolves.  A `"not_modified"`
result throws and a fetch failure rejects, both landing in the `catch`
handler. -/
def applyCold {T : Type} (d : StoreDefinition T) (outcome : RefreshOutcome T)
    (mkdirErr writeErr : Option String) (cache : Option (Nat × T)) (now : Nat)
    (s : StoreState T) : StoreState T :=
  match outcome with
  | RefreshOutcome.fresh lm v =>
    let s1 := { s with lastModified := lm, instanceVal := some v }
    match saveLocalCache d v mkdirErr writeErr with
    | Except.error pe => applyColdCatch d pe cache s1
    | Except.ok _ =>
      scheduleStoreRefresh d
        { s1 with
          coldPending := false
          status := Status.ok
          lastRefresh := some now
          promise := PromiseState.resolved v }
  | RefreshOutcome.notModified =>
    applyColdCatch d "Not modified. (must never happen on first load)" cache s
  | RefreshOutcome.failure e => applyColdCatch d e cache s

/-- The body of the `refresh` closure inside `scheduleStoreRefresh`, run when
the awaited `definition.refresh(lastModified)` settles.  On `"not_modified"`
nothing but status and `lastRefresh` change; on a fresh value the local cache
is saved first (a synchronous throw there is caught like a fetch failure),
then `lastModified` is updated only if the new one is truthy, the value is
replaced, status becomes `ok` and `lastRefresh` is stamped; on a failure the
`catch` sets status `outdated` and touches nothing else. -/
def applyRefresh {T : Type} (d : StoreDefinition T) (outcome : RefreshOutcome T)
    (mkdirErr writeErr : Option String) (now : Nat) (s : StoreState T) : StoreState T :=
  match outcome with
  | RefreshOutcome.failure _ => { s with status := Status.outdated }
  | RefreshOutcome.notModified =>
    { s with status := Status.ok, lastRefresh := some now }
  | RefreshOutcome.fresh lm v =>
    match saveLocalCache d v mkdirErr writeErr with
    | Except.error _ => { s with status := Status.outdated }
    | Except.ok _ =>
      { s with
        lastModified := match lm with | some x => some x | none => s.lastModified
        instanceVal := some v
        status := Status.ok
        lastRefresh := some now }

/-- The common effect of one scheduled tick starting:
`definition.refresh(lastModified)` is invoked, which appends the current
marker to the fetch log and counts as in flight until it settles. -/
def startTick {T : Type} (s : StoreState T) : StoreState T :=
  { s with fetchLog := s.fetchLog ++ [s.lastModified], inflight := s.inflight + 1 }

/-- Bookkeeping: one in-flight scheduled refresh has completed. -/
def decInflight {T : Type} (s : StoreState T) : StoreState T :=
  { s with inflight := s.inflight - 1 }

/-- `stop()`: set the stopping flag, clear the interval (which only exists
in the positive-interval mode; in loop mode `intervalToClear` was never
assigned, so the pending `setTimeout`, if any, survives), and set status
`stopped`.  It touches nothing else: the value, the promise, the timestamps
and a pending loop timeout are all kept. -/
def applyStop {T : Type} (s : StoreState T) : StoreState T :=
  { s with stopping := true, status := Status.stopped }

/-- `get()` from the returned object: if `instance` is truthy return
`Promise.resolve(instance)`, otherwise return `instancePromise` (whose
current state the caller observes).  Truthiness of the value type is
supplied as `truthy` (JavaScript: `0`, `""`, `false`, `null`, `NaN` are
falsy; `undefined`, i.e. `instanceVal = none`, is falsy too). -/
def get {T : Type} (truthy : T → Bool) (s : StoreState T) : PromiseState T :=
  match s.instanceVal with
  | some v => if truthy v then PromiseState.resolved v else s.promise
  | none => s.promise

/-- `getCurrent()` from the returned object. -/
def getCurrent {T : Type} (s : StoreState T) : Option T := s.instanceVal

/-- The event-loop step relation of one store instance.  `coldDone` may fire
only while the construction-time fetch is pending.  `tickStart` is an
interval-mode tick: the `setInterval` callback runs, checks `stopping`, and
invokes `refresh` — so it requires a strictly positive interval, an armed
scheduler and `stopping = false` (and after `stop()` the interval is cleared
anyway).  `tickFire` is a loop-mode tick: the pending 1 ms `setTimeout`
fires and its callback invokes `refresh()` WITHOUT rechecking the stopping
flag — `stop()` cancels no timer in this mode, so this step is enabled after
`stop()` whenever a timeout was pending.  `refreshDone` completes one
started tick — the `refresh` body never consults `stopping`, so a tick in
flight when `stop()` runs still applies its result — and then, in loop
mode, `loop()` runs again and re-schedules the timeout unless the store is
stopping.  `stopCall` and `getCall` may fire at any time (`get()` reads but
never writes the state). -/
inductive Step {T : Type} (d : StoreDefinition T) : StoreState T → StoreState T → Prop where
  | coldDone (s : StoreState T) (outcome : RefreshOutcome T)
      (mkdirErr writeErr fileContents : Option String) (mtime now : Nat)
      (h : s.coldPending = true) :
      Step d s (applyCold d outcome mkdirErr writeErr
        (loadFromCache d fileContents mtime) now s)
  | tickStart (s : StoreState T) (h0 : 0 < d.refreshIntervalMillis)
      (h1 : s.schedulerArmed = true) (h2 : s.stopping = false) :
      Step d s (startTick s)
  | tickFire (s : StoreState T) (h0 : d.refreshIntervalMillis ≤ 0)
      (h1 : s.timerPending = true) :
      Step d s (startTick { s with timerPending := false })
  | refreshDone (s : StoreState T) (outcome : RefreshOutcome T)
      (mkdirErr writeErr : Option String) (now : Nat) (h : 0 < s.inflight) :
      Step d s (loopSchedule d (decInflight (applyRefresh d outcome mkdirErr writeErr now s)))
  | stopCall (s : StoreState T) : Step d s (applyStop s)
  | getCall (s : StoreState T) : Step d s s

/-- States reachable from construction. -/
def Reachable {T : Type} (d : StoreDefinition T) (s : StoreState T) : Prop :=
  Relation.ReflTransGen (Step d) (initialState T) s

/-! ## Structural invariants -/

/-- Fields of the state that the scheduled-refresh body never writes. -/
theorem applyRefresh_frame {T : Type} (d : StoreDefinition T) (o : RefreshOutcome T)
    (mk we : Option String) (now : Nat) (s : StoreState T) :
    (applyRefresh d o mk we now s).promise = s.promise ∧
    (applyRefresh d o mk we now s).coldPending = s.coldPending ∧
    (applyRefresh d o mk we now s).schedulerArmed = s.schedulerArmed ∧
    (applyRefresh d o mk we now s).inflight = s.inflight ∧
    (applyRefresh d o mk we now s).fetchLog = s.fetchLog ∧
    (applyRefresh d o mk we now s).stopping = s.stopping ∧
    (applyRefresh d o mk we now s).timerPending = s.timerPending := by
  cases o with
  | fresh lm v => cases hsave : saveLocalCache d v mk we <;> simp [applyRefresh, hsave]
  | notModified => simp [applyRefresh]
  | failure e => simp [applyRefresh]

/-- The scheduled-refresh body only ever sets status `ok` or `outdated`. -/
theorem applyRefresh_status {T : Type} (d : StoreDefinition T) (o : RefreshOutcome T)
    (mk we : Option String) (now : Nat) (s : StoreState T) :
    (applyRefresh d o mk we now s).status = Status.ok ∨
    (applyRefresh d o mk we now s).status = Status.outdated := by
  cases o with
  | fresh lm v => cases hsave : saveLocalCache d v mk we <;> simp [applyRefresh, hsave]
  | notModified => simp [applyRefresh]
  | failure e => simp [applyRefresh]

/-- `loopSchedule` only (possibly) re-arms the loop timer; every other
field is untouched. -/
theorem loopSchedule_frame {T : Type} (d : StoreDefinition T) (s : StoreState T) :
    (loopSchedule d s).status = s.status ∧
    (loopSchedule d s).instanceVal = s.instanceVal ∧
    (loopSchedule d s).promise = s.promise ∧
    (loopSchedule d s).lastRefresh = s.lastRefresh ∧
    (loopSchedule d s).lastModified = s.lastModified ∧
    (loopSchedule d s).stopping = s.stopping ∧
    (loopSchedule d s).schedulerArmed = s.schedulerArmed ∧
    (loopSchedule d s).coldPending = s.coldPending ∧
    (loopSchedule d s).inflight = s.inflight ∧
    (loopSchedule d s).fetchLog = s.fetchLog :=
  ⟨rfl, rfl, rfl, rfl, rfl, rfl, rfl, rfl, rfl, rfl⟩

/-- When the store is stopping, `loop()` does not re-schedule the timer. -/
theorem loopSchedule_timer_stopping {T : Type} (d : StoreDefinition T) (s : StoreState T)
    (h : s.stopping = true) : (loopSchedule d s).timerPending = s.timerPending := by
  by_cases h1 : d.refreshIntervalMillis ≤ 0 <;> simp [loopSchedule, h1, h]

/-- Structural invariant of every reachable store state: during the cold load
nothing has been stored, resolved or scheduled, no loop timeout is pending
and exactly the one initial fetch (with no marker) has been issued; an armed
scheduler means the promise has resolved; `failed` states are unarmed with
nothing in flight and no pending timeout; an in-flight tick or a pending
timeout implies an armed scheduler. -/
def Inv {T : Type} (s : StoreState T) : Prop :=
  (s.coldPending = true →
    s.schedulerArmed = false ∧ s.instanceVal = none ∧
      s.promise = PromiseState.pending ∧ s.fetchLog = [none] ∧ s.inflight = 0 ∧
      s.timerPending = false) ∧
  (s.schedulerArmed = true → ∃ v, s.promise = PromiseState.resolved v) ∧
  (s.status = Status.failed →
    s.schedulerArmed = false ∧ s.coldPending = false ∧ s.inflight = 0 ∧
      s.timerPending = false) ∧
  (0 < s.inflight → s.schedulerArmed = true) ∧
  (s.timerPending = true → s.schedulerArmed = true)

theorem inv_initial (T : Type) : Inv (initialState T) := by
  simp [Inv, initialState]

theorem inv_step {T : Type} {d : StoreDefinition T} {s s' : StoreState T}
    (hi : Inv s) (hs : Step d s s') : Inv s' := by
  obtain ⟨i1, i2, i3, i4, i5⟩ := hi
  cases hs with
  | coldDone outcome mkdirErr writeErr fileContents mtime now h =>
    obtain ⟨ha, hv, hp, hl, hf, ht⟩ := i1 h
    cases outcome with
    | fresh lm v =>
      cases hsave : saveLocalCache d v mkdirErr writeErr with
      | ok u =>
        refine ⟨by simp [applyCold, hsave, scheduleStoreRefresh, loopSchedule], ?_,
          by simp [applyCold, hsave, scheduleStoreRefresh, loopSchedule], ?_, ?_⟩
        · intro _
          exact ⟨v, by simp [applyCold, hsave, scheduleStoreRefresh, loopSchedule]⟩
        · simp [applyCold, hsave, scheduleStoreRefresh, loopSchedule, hf]
        · intro _
          simp [applyCold, hsave, scheduleStoreRefresh, loopSchedule]
      | error pe =>
        cases hc : loadFromCache d fileContents mtime with
        | none =>
          refine ⟨by simp [applyCold, hsave, hc, applyColdCatch], ?_,
            by simp [applyCold, hsave, hc, applyColdCatch, ha, hf, ht], ?_, ?_⟩
          · intro harmed
            simp [applyCold, hsave, applyColdCatch, ha] at harmed
          · simp [applyCold, hsave, hc, applyColdCatch, hf]
          · intro htm
            simp [applyCold, hsave, applyColdCatch, ht] at htm
        | some p =>
          obtain ⟨ud, w⟩ := p
          refine ⟨by simp [applyCold, hsave, hc, applyColdCatch, scheduleStoreRefresh,
              loopSchedule], ?_,
            by simp [applyCold, hsave, hc, applyColdCatch, scheduleStoreRefresh,
              loopSchedule], ?_, ?_⟩
          · intro _
            exact ⟨w, by simp [applyCold, hsave, hc, applyColdCatch, scheduleStoreRefresh,
              loopSchedule]⟩
          · simp [applyCold, hsave, hc, applyColdCatch, scheduleStoreRefresh, loopSchedule, hf]
          · intro _
            simp [applyCold, hsave, hc, applyColdCatch, scheduleStoreRefresh, loopSchedule]
    | notModified =>
      cases hc : loadFromCache d fileContents mtime with
      | none =>
        refine ⟨by simp [applyCold, hc, applyColdCatch], ?_,
          by simp [applyCold, hc, applyColdCatch, ha, hf, ht], ?_, ?_⟩
        · intro harmed
          simp [applyCold, applyColdCatch, ha] at harmed
        · simp [applyCold, hc, applyColdCatch, hf]
        · intro htm
          simp [applyCold, applyColdCatch, ht] at htm
      | some p =>
        obtain ⟨ud, w⟩ := p
        refine ⟨by simp [applyCold, hc, applyColdCatch, scheduleStoreRefresh, loopSchedule], ?_,
          by simp [applyCold, hc, applyColdCatch, scheduleStoreRefresh, loopSchedule], ?_, ?_⟩
        · intro _
          exact ⟨w, by simp [applyCold, hc, applyColdCatch, scheduleStoreRefresh, loopSchedule]⟩
        · simp [applyCold, hc, applyColdCatch, scheduleStoreRefresh, loopSchedule, hf]
        · intro _
          simp [applyCold, hc, applyColdCatch, scheduleStoreRefresh, loopSchedule]
    | failure e =>
      cases hc : loadFromCache d fileContents mtime with
      | none =>
        refine ⟨by simp [applyCold, hc, applyColdCatch], ?_,
          by simp [applyCold, hc, applyColdCatch, ha, hf, ht], ?_, ?_⟩
        · intro harmed
          simp [applyCold, applyColdCatch, ha] at harmed
        · simp [applyCold, hc, applyColdCatch, hf]
        · intro htm
          simp [applyCold, applyColdCatch, ht] at htm
      | some p =>
        obtain ⟨ud, w⟩ := p
        refine ⟨by simp [applyCold, hc, applyColdCatch, scheduleStoreRefresh, loopSchedule], ?_,
          by simp [applyCold, hc, applyColdCatch, scheduleStoreRefresh, loopSchedule], ?_, ?_⟩
        · intro _
          exact ⟨w, by simp [applyCold, hc, applyColdCatch, scheduleStoreRefresh, loopSchedule]⟩
        · simp [applyCold, hc, applyColdCatch, scheduleStoreRefresh, loopSchedule, hf]
        · intro _
          simp [applyCold, hc, applyColdCatch, scheduleStoreRefresh, loopSchedule]
  | tickStart h0 h1 h2 =>
    refine ⟨?_, ?_, ?_, ?_, ?_⟩
    · intro hcp
      rw [show (startTick s).coldPending = s.coldPending from by simp [startTick]] at hcp
      obtain ⟨ha, _⟩ := i1 hcp
      rw [ha] at h1
      cases h1
    · intro _
      obtain ⟨v, hv⟩ := i2 h1
      exact ⟨v, by simp [startTick, hv]⟩
    · intro hst
      rw [show (startTick s).status = s.status from by simp [startTick]] at hst
      obtain ⟨ha, _⟩ := i3 hst
      rw [ha] at h1
      cases h1
    · intro _
      simp [startTick, h1]
    · intro _
      simp [startTick, h1]
  | tickFire h0 h1 =>
    have harm : s.schedulerArmed = true := i5 h1
    refine ⟨?_, ?_, ?_, ?_, ?_⟩
    · intro hcp
      rw [show (startTick { s with timerPending := false }).coldPending = s.coldPending
        from by simp [startTick]] at hcp
      obtain ⟨ha, _⟩ := i1 hcp
      rw [ha] at harm
      cases harm
    · intro _
      obtain ⟨v, hv⟩ := i2 harm
      exact ⟨v, by simp [startTick, hv]⟩
    · intro hst
      rw [show (startTick { s with timerPending := false }).status = s.status
        from by simp [startTick]] at hst
      obtain ⟨_, _, _, ht2⟩ := i3 hst
      rw [ht2] at h1
      cases h1
    · intro _
      simp [startTick, harm]
    · intro htm
      simp [startTick] at htm
  | refreshDone outcome mkdirErr writeErr now h =>
    have harmed := i4 h
    obtain ⟨hfp, hfc, hfa, hfi, hfl, hfs, hft⟩ :=
      applyRefresh_frame d outcome mkdirErr writeErr now s
    refine ⟨?_, ?_, ?_, ?_, ?_⟩
    · intro hcp
      rw [show (loopSchedule d (decInflight (applyRefresh d outcome mkdirErr writeErr
        now s))).coldPending = s.coldPending from by simp [loopSchedule, decInflight, hfc]] at hcp
      obtain ⟨_, _, _, _, hzero, _⟩ := i1 hcp
      rw [hzero] at h
      cases h
    · intro _
      obtain ⟨v, hv⟩ := i2 harmed
      refine ⟨v, ?_⟩
      rw [show (loopSchedule d (decInflight (applyRefresh d outcome mkdirErr writeErr
        now s))).promise = s.promise from by simp [loopSchedule, decInflight, hfp]]
      exact hv
    · intro hst
      rw [show (loopSchedule d (decInflight (applyRefresh d outcome mkdirErr writeErr
        now s))).status = (applyRefresh d outcome mkdirErr writeErr now s).status
        from by simp [loopSchedule, decInflight]] at hst
      rcases applyRefresh_status d outcome mkdirErr writeErr now s with hok | hout
      · rw [hok] at hst; cases hst
      · rw [hout] at hst; cases hst
    · intro _
      rw [show (loopSchedule d (decInflight (applyRefresh d outcome mkdirErr writeErr
        now s))).schedulerArmed = s.schedulerArmed from by simp [loopSchedule, decInflight, hfa]]
      exact harmed
    · intro _
      rw [show (loopSchedule d (decInflight (applyRefresh d outcome mkdirErr writeErr
        now s))).schedulerArmed = s.schedulerArmed from by simp [loopSchedule, decInflight, hfa]]
      exact harmed
  | stopCall =>
    refine ⟨?_, ?_, ?_, ?_, ?_⟩
    · intro hcp
      rw [show (applyStop s).coldPending = s.coldPending from by simp [applyStop]] at hcp
      obtain ⟨ha, hv, hp, hl, hf, ht⟩ := i1 hcp
      exact ⟨by simp [applyStop, ha], by simp [applyStop, hv],
        by simp [applyStop, hp], by simp [applyStop, hl], by simp [applyStop, hf],
        by simp [applyStop, ht]⟩
    · intro harmed
      rw [show (applyStop s).schedulerArmed = s.schedulerArmed from by simp [applyStop]] at harmed
      obtain ⟨v, hv⟩ := i2 harmed
      exact ⟨v, by simp [applyStop, hv]⟩
    · intro hst
      rw [show (applyStop s).status = Status.stopped from by simp [applyStop]] at hst
      cases hst
    · intro hfl
      rw [show (applyStop s).inflight = s.inflight from by simp [applyStop]] at hfl
      have := i4 hfl
      simp [applyStop, this]
    · intro htm
      rw [show (applyStop s).timerPending = s.timerPending from by simp [applyStop]] at htm
      have := i5 htm
      simp [applyStop, this]
  | getCall => exact ⟨i1, i2, i3, i4, i5⟩

theorem steps_inv {T : Type} {d : StoreDefinition T} {s s' : StoreState T}
    (hi : Inv s) (h : Relation.ReflTransGen (Step d) s s') : Inv s' := by
  induction h with
  | refl => exact hi
  | tail _ hstep ih => exact inv_step ih hstep

theorem reachable_inv {T : Type} {d : StoreDefinition T} {s : StoreState T}
    (h : Reachable d s) : Inv s :=
  steps_inv (inv_initial T) h

/-- A store whose cold load has completed, whose scheduler was never armed
and which has neither a tick in flight nor a pending loop timeout is frozen:
no event can ever invoke the fetch operation again or change anything other
than the status moving to `stopped` by an explicit `stop()`.  This is the
situation after a cold-load failure with no usable snapshot. -/
theorem dead_store_frozen {T : Type} {d : StoreDefinition T} {s s' : StoreState T}
    (h1 : s.schedulerArmed = false) (h2 : s.coldPending = false) (h3 : s.inflight = 0)
    (h4 : s.timerPending = false)
    (h : Relation.ReflTransGen (Step d) s s') :
    s'.schedulerArmed = false ∧ s'.coldPending = false ∧ s'.inflight = 0 ∧
    s'.timerPending = false ∧
    s'.fetchLog = s.fetchLog ∧ s'.promise = s.promise ∧ s'.instanceVal = s.instanceVal ∧
    s'.lastRefresh = s.lastRefresh ∧ (s'.status = s.status ∨ s'.status = Status.stopped) := by
  induction h with
  | refl => exact ⟨h1, h2, h3, h4, rfl, rfl, rfl, rfl, Or.inl rfl⟩
  | tail hab hstep ih =>
    obtain ⟨a1, a2, a3, a4, a5, a6, a7, a8, a9⟩ := ih
    cases hstep with
    | coldDone outcome mk we fc mt now hb => rw [a2] at hb; cases hb
    | tickStart hb0 hb1 hb2 => rw [a1] at hb1; cases hb1
    | tickFire hb0 hb1 => rw [a4] at hb1; cases hb1
    | refreshDone outcome mk we now hb =>
      rw [a3] at hb
      exact absurd hb (by omega)
    | stopCall =>
      exact ⟨by simp [applyStop, a1], by simp [applyStop, a2], by simp [applyStop, a3],
        by simp [applyStop, a4], by simp [applyStop, a5], by simp [applyStop, a6],
        by simp [applyStop, a7], by simp [applyStop, a8], Or.inr (by simp [applyStop])⟩
    | getCall => exact ⟨a1, a2, a3, a4, a5, a6, a7, a8, a9⟩

/-- In loop mode, once no timeout is pending, nothing is in flight and the
cold load is over, the fetch operation is never invoked again: interval
ticks are impossible (wrong mode), loop ticks need a pending timeout, and
nothing can re-arm one. -/
theorem loop_dead_frozen {T : Type} {d : StoreDefinition T} {s s' : StoreState T}
    (hmode : d.refreshIntervalMillis ≤ 0)
    (h1 : s.timerPending = false) (h2 : s.coldPending = false) (h3 : s.inflight = 0)
    (h : Relation.ReflTransGen (Step d) s s') :
    s'.timerPending = false ∧ s'.coldPending = false ∧ s'.inflight = 0 ∧
    s'.fetchLog = s.fetchLog := by
  induction h with
  | refl => exact ⟨h1, h2, h3, rfl⟩
  | tail hab hstep ih =>
    obtain ⟨a1, a2, a3, a4⟩ := ih
    cases hstep with
    | coldDone outcome mk we fc mt now hb => rw [a2] at hb; cases hb
    | tickStart hb0 hb1 hb2 => exact absurd hb0 (by omega)
    | tickFire hb0 hb1 => rw [a1] at hb1; cases hb1
    | refreshDone outcome mk we now hb =>
      rw [a3] at hb
      exact absurd hb (by omega)
    | stopCall =>
      exact ⟨by simp [applyStop, a1], by simp [applyStop, a2], by simp [applyStop, a3],
        by simp [applyStop, a4]⟩
    | getCall => exact ⟨a1, a2, a3, a4⟩

/-- Once the cold load has completed, the state of `instancePromise` never
changes again: every caller that was waiting observes that one outcome. -/
theorem promise_frozen {T : Type} {d : StoreDefinition T} {s s' : StoreState T}
    (h2 : s.coldPending = false) (h : Relation.ReflTransGen (Step d) s s') :
    s'.promise = s.promise ∧ s'.coldPending = false := by
  induction h with
  | refl => exact ⟨rfl, h2⟩
  | tail hab hstep ih =>
    rename_i b c
    obtain ⟨a1, a2⟩ := ih
    cases hstep with
    | coldDone outcome mk we fc mt now hb => rw [a2] at hb; cases hb
    | tickStart hb0 hb1 hb2 => exact ⟨by simp [startTick, a1], by simp [startTick, a2]⟩
    | tickFire hb0 hb1 => exact ⟨by simp [startTick, a1], by simp [startTick, a2]⟩
    | refreshDone outcome mk we now hb =>
      obtain ⟨hfp, hfc, _⟩ := applyRefresh_frame d outcome mk we now b
      exact ⟨by simp [loopSchedule, decInflight, hfp, a1],
        by simp [loopSchedule, decInflight, hfc, a2]⟩
    | stopCall => exact ⟨by simp [applyStop, a1], by simp [applyStop, a2]⟩
    | getCall => exact ⟨a1, a2⟩

/-! ## Concrete fixtures for counterexamples and witnesses -/

/-- A concrete store definition over JavaScript numbers (modelled as `Int`),
with a configured cache directory and the default JSON codec. -/
def exDef : StoreDefinition Int :=
  { refreshIntervalMillis := 60000
    name := "profiles"
    serializer := fun v => some (toString v)
    deserializer := fun str => some ((str.length : Int))
    localDir := some ("cachedir") }

/-- JavaScript truthiness of a number: `0` is falsy. -/
def numTruthy : Int → Bool := fun v => v != 0

/-- State after a successful cold load of the value `5` at time 100. -/
def sOk : StoreState Int :=
  applyCold exDef (RefreshOutcome.fresh none 5) none none
    (loadFromCache exDef none 0) 100 (initialState Int)

/-- State after a cold fetch failure with no readable snapshot. -/
def sFailed : StoreState Int :=
  applyCold exDef (RefreshOutcome.failure ("boom")) none none
    (loadFromCache exDef none 0) 0 (initialState Int)

theorem sOk_reachable : Reachable exDef sOk :=
  Relation.ReflTransGen.single
    (Step.coldDone (initialState Int) (RefreshOutcome.fresh none 5) none none none 0 100 rfl)

theorem sFailed_reachable : Reachable exDef sFailed :=
  Relation.ReflTransGen.single
    (Step.coldDone (initialState Int) (RefreshOutcome.failure ("boom")) none none none 0 0 rfl)

/-! ## Helper facts about `get` resolution, used for claim C1 -/

/-- The two ways `get()` can observe a settled value: a truthy in-memory
value, or a resolved `instancePromise`. -/
def GetResolves {T : Type} (truthy : T → Bool) (s : StoreState T) : Prop :=
  (∃ u, s.instanceVal = some u ∧ truthy u = true) ∨
  (∃ w, s.promise = PromiseState.resolved w)

theorem getResolves_get {T : Type} (truthy : T → Bool) (s : StoreState T)
    (h : GetResolves truthy s) : ∃ w, get truthy s = PromiseState.resolved w := by
  rcases h with ⟨u, hu, ht⟩ | ⟨w, hw⟩
  · exact ⟨u, by simp [get, hu, ht]⟩
  · cases hv : s.instanceVal with
    | none => exact ⟨w, by simp [get, hv, hw]⟩
    | some u =>
      by_cases ht : truthy u
      · exact ⟨u, by simp [get, hv, ht]⟩
      · exact ⟨w, by simp [get, hv, ht, hw]⟩

theorem get_getResolves {T : Type} (truthy : T → Bool) (s : StoreState T) (w : T)
    (h : get truthy s = PromiseState.resolved w) : GetResolves truthy s := by
  cases hv : s.instanceVal with
  | none =>
    right
    simp [get, hv] at h
    exact ⟨w, h⟩
  | some u =>
    by_cases ht : truthy u
    · exact Or.inl ⟨u, hv, by simp [ht]⟩
    · right
      simp [get, hv, ht] at h
      exact ⟨w, h⟩

theorem getResolves_step {T : Type} {d : StoreDefinition T} (truthy : T → Bool)
    {s s' : StoreState T} (hi : Inv s) (hq : GetResolves truthy s) (hs : Step d s s') :
    GetResolves truthy s' := by
  obtain ⟨i1, i2, i3, i4, i5⟩ := hi
  cases hs with
  | coldDone outcome mk we fc mt now h =>
    obtain ⟨ha, hv, hp, _, _, _⟩ := i1 h
    rcases hq with ⟨u, hu, _⟩ | ⟨w, hw⟩
    · rw [hv] at hu; cases hu
    · rw [hp] at hw; cases hw
  | tickStart h0 h1 h2 =>
    rcases hq with ⟨u, hu, ht⟩ | ⟨w, hw⟩
    · exact Or.inl ⟨u, by simp [startTick, hu], ht⟩
    · exact Or.inr ⟨w, by simp [startTick, hw]⟩
  | tickFire h0 h1 =>
    rcases hq with ⟨u, hu, ht⟩ | ⟨w, hw⟩
    · exact Or.inl ⟨u, by simp [startTick, hu], ht⟩
    · exact Or.inr ⟨w, by simp [startTick, hw]⟩
  | refreshDone outcome mk we now h =>
    obtain ⟨w, hw⟩ := i2 (i4 h)
    obtain ⟨hfp, _⟩ := applyRefresh_frame d outcome mk we now s
    exact Or.inr ⟨w, by simp [loopSchedule, decInflight, hfp, hw]⟩
  | stopCall =>
    rcases hq with ⟨u, hu, ht⟩ | ⟨w, hw⟩
    · exact Or.inl ⟨u, by simp [applyStop, hu], ht⟩
    · exact Or.inr ⟨w, by simp [applyStop, hw]⟩
  | getCall => exact hq

/-! ## Claim C1 -/

/-- State reached by: cold fetch succeeds with the falsy value `0`, but the
synchronous part of `saveLocalCache` throws (`mkdirSync` fails), so the
`then` handler falls into the `catch` handler after `instance` was already
assigned; no snapshot is readable, so the promise is rejected. -/
def sObtainedButRejected : StoreState Int :=
  applyCold exDef (RefreshOutcome.fresh none 0) (some ("EACCES")) none
    (loadFromCache exDef none 0) 0 (initialState Int)

/-- Claim C1 counterexample.  A value HAS been obtained from a successful
fetch — `getCurrent()` returns `0` — yet `get()` does not resolve: the value
is falsy, so `get()` returns the cold-load promise, which was rejected
because `saveLocalCache` threw synchronously inside the `then` handler and
no snapshot existed.  So "once a value has ever been obtained, every
subsequent `get()` resolves and never fails" is false as stated. -/
theorem c1_counterexample :
    Reachable exDef sObtainedButRejected ∧
    getCurrent sObtainedButRejected = some 0 ∧
    sObtainedButRejected.status = Status.failed ∧
    get numTruthy sObtainedButRejected =
      PromiseState.rejected (coldErrMsg ("profiles") ("EACCES")) := by
  refine ⟨Relation.ReflTransGen.single
    (Step.coldDone (initialState Int) (RefreshOutcome.fresh none 0)
      (some ("EACCES")) none none 0 0 rfl), by decide, by decide, by decide⟩

/-- Claim C1 (amended): once any `get()` call has resolved with a value —
equivalently, once the store holds a truthy value or the cold-load promise
has resolved — every later `get()` resolves with some value, without
suspension and without failing, for the remaining life of the store,
including after `stop()`.  (The amendment replaces "once a value has ever
been obtained", which `c1_counterexample` refutes: after a successful fetch
of a falsy value whose synchronous persist step threw with no snapshot
available, `getCurrent()` holds the value but `get()` rejects.) -/
theorem c1_amended {T : Type} (d : StoreDefinition T) (truthy : T → Bool)
    (s s' : StoreState T) (v : T)
    (hr : Reachable d s) (hget : get truthy s = PromiseState.resolved v)
    (hsteps : Relation.ReflTransGen (Step d) s s') :
    ∃ w, get truthy s' = PromiseState.resolved w := by
  have hq : GetResolves truthy s := get_getResolves truthy s v hget
  have hinv : Inv s := reachable_inv hr
  have key : Inv s' ∧ GetResolves truthy s' := by
    induction hsteps with
    | refl => exact ⟨hinv, hq⟩
    | tail hab hstep ih =>
      exact ⟨inv_step ih.1 hstep, getResolves_step truthy ih.1 ih.2 hstep⟩
  exact getResolves_get truthy s' key.2

theorem c1_amended_witness :
    get numTruthy sOk = PromiseState.resolved 5 ∧
    (∃ w, get numTruthy sOk = PromiseState.resolved w) :=
  ⟨by decide, c1_amended exDef numTruthy sOk sOk 5 sOk_reachable (by decide)
    Relation.ReflTransGen.refl⟩

/-! ## Claim C2 -/

/-- Claim C2 counterexample.  On a cold fetch failure (error message
`"boom"`) with no readable snapshot, status does become `failed`, but the
waiting `get()` callers are NOT released with the fetch operation's original
error: the code rejects with a new `Error` whose message wraps the original
one, and that wrapper is a different error value. -/
theorem c2_counterexample :
    Reachable exDef sFailed ∧ sFailed.status = Status.failed ∧
    get numTruthy sFailed = PromiseState.rejected (coldErrMsg ("profiles") ("boom")) ∧
    coldErrMsg ("profiles") ("boom") ≠ "boom" :=
  ⟨sFailed_reachable, by decide, by decide, by decide⟩

/-- Claim C2 (amended): if the cold-load fetch fails and no durable snapshot
is present or readable, status becomes `failed`, every `get()` waiting on
initialization fails with an error whose message embeds the fetch
operation's original error message (a wrapping error, not the original error
value, and not a generic no-cache error), and no further fetch is ever
invoked: the fetch log stays at the single cold call forever, the promise
stays rejected, and the only possible later status change is `stop()`
setting `stopped`. -/
theorem c2_amended {T : Type} (d : StoreDefinition T) (truthy : T → Bool) (e : String)
    (mk we fc : Option String) (mt now : Nat) (s s2 s' : StoreState T)
    (hr : Reachable d s) (hc : s.coldPending = true)
    (hnc : loadFromCache d fc mt = none)
    (h2 : s2 = applyCold d (RefreshOutcome.failure e) mk we (loadFromCache d fc mt) now s)
    (hsteps : Relation.ReflTransGen (Step d) s2 s') :
    s2.status = Status.failed ∧
    get truthy s2 = PromiseState.rejected (coldErrMsg d.name e) ∧
    (∃ pre post, coldErrMsg d.name e = pre ++ (e ++ post)) ∧
    s'.promise = PromiseState.rejected (coldErrMsg d.name e) ∧
    s'.fetchLog = [none] ∧
    (s'.status = Status.failed ∨ s'.status = Status.stopped) := by
  obtain ⟨i1, i2, i3, i4, i5⟩ := reachable_inv hr
  obtain ⟨ha, hv, hp, hl, hf, ht⟩ := i1 hc
  have e1 : s2.status = Status.failed := by
    rw [h2, hnc]; simp [applyCold, applyColdCatch]
  have e2 : s2.instanceVal = none := by
    rw [h2, hnc]; simp [applyCold, applyColdCatch, hv]
  have e3 : s2.promise = PromiseState.rejected (coldErrMsg d.name e) := by
    rw [h2, hnc]; simp [applyCold, applyColdCatch]
  have e4 : s2.schedulerArmed = false := by
    rw [h2, hnc]; simp [applyCold, applyColdCatch, ha]
  have e5 : s2.coldPending = false := by
    rw [h2, hnc]; simp [applyCold, applyColdCatch]
  have e6 : s2.inflight = 0 := by
    rw [h2, hnc]; simp [applyCold, applyColdCatch, hf]
  have e7 : s2.fetchLog = [none] := by
    rw [h2, hnc]; simp [applyCold, applyColdCatch, hl]
  have e8 : s2.timerPending = false := by
    rw [h2, hnc]; simp [applyCold, applyColdCatch, ht]
  obtain ⟨f1, f2, f3, f4, f5, f6, f7, f8, f9⟩ := dead_store_frozen e4 e5 e6 e8 hsteps
  refine ⟨e1, by simp [get, e2, e3], ?_, by rw [f6, e3], by rw [f5, e7], ?_⟩
  · exact ⟨("Failed to initialize store " ++ d.name ++ ". Initial load failed with "),
      (" and no local cache found"), rfl⟩
  · rcases f9 with h9 | h9
    · exact Or.inl (by rw [h9, e1])
    · exact Or.inr h9

theorem c2_amended_witness : sFailed.status = Status.failed :=
  (c2_amended exDef numTruthy ("boom") none none none 0 0 (initialState Int) sFailed sFailed
    Relation.ReflTransGen.refl rfl rfl rfl Relation.ReflTransGen.refl).1

/-! ## Claim C3 -/

/-- Claim C3 (confirmed): if the cold-load fetch fails (error `e`) but
`loadFromCache` finds a readable snapshot `(mdate, v)`, then: callers were
pending before; the snapshot's date is exactly the cache file's mtime; the
promise resolves with the snapshot's value (releasing every waiting
caller); status becomes `outdated`; `lastRefresh` is set to the file's
last-modification time; the scheduler is armed anyway; and any later `get()`
resolves with the snapshot's value. -/
theorem c3_cache_fallback {T : Type} (d : StoreDefinition T) (truthy : T → Bool)
    (e : String) (mk we fc : Option String) (mt mdate now : Nat) (v : T)
    (s : StoreState T)
    (hr : Reachable d s) (hc : s.coldPending = true)
    (hcache : loadFromCache d fc mt = some (mdate, v)) :
    get truthy s = PromiseState.pending ∧
    mdate = mt ∧
    (applyCold d (RefreshOutcome.failure e) mk we (loadFromCache d fc mt) now s).promise =
      PromiseState.resolved v ∧
    (applyCold d (RefreshOutcome.failure e) mk we (loadFromCache d fc mt) now s).status =
      Status.outdated ∧
    (applyCold d (RefreshOutcome.failure e) mk we (loadFromCache d fc mt) now s).lastRefresh =
      some mdate ∧
    (applyCold d (RefreshOutcome.failure e) mk we (loadFromCache d fc mt) now s).schedulerArmed =
      true ∧
    (∀ tr : T → Bool,
      get tr (applyCold d (RefreshOutcome.failure e) mk we (loadFromCache d fc mt) now s) =
        PromiseState.resolved v) := by
  obtain ⟨i1, i2, i3, i4, i5⟩ := reachable_inv hr
  obtain ⟨ha, hv, hp, hl, hf, ht⟩ := i1 hc
  have hmd : mdate = mt := by
    cases hld : d.localDir with
    | none => simp [loadFromCache, hld] at hcache
    | some dir =>
      cases fc with
      | none => simp [loadFromCache, hld] at hcache
      | some str =>
        cases hde : d.deserializer str with
        | none => simp [loadFromCache, hld, hde] at hcache
        | some u =>
          simp [loadFromCache, hld, hde] at hcache
          exact hcache.1.symm
  rw [hcache]
  refine ⟨by simp [get, hv, hp], hmd,
    by simp [applyCold, applyColdCatch, scheduleStoreRefresh, loopSchedule],
    by simp [applyCold, applyColdCatch, scheduleStoreRefresh, loopSchedule],
    by simp [applyCold, applyColdCatch, scheduleStoreRefresh, loopSchedule],
    by simp [applyCold, applyColdCatch, scheduleStoreRefresh, loopSchedule], ?_⟩
  intro tr
  by_cases htr : tr v <;>
    simp [get, applyCold, applyColdCatch, scheduleStoreRefresh, loopSchedule, htr]

theorem c3_cache_fallback_witness :
    (applyCold exDef (RefreshOutcome.failure ("x")) none none
      (loadFromCache exDef (some ("5")) 77) 0 (initialState Int)).status = Status.outdated :=
  (c3_cache_fallback exDef numTruthy ("x") none none (some ("5")) 77 77 0 1 (initialState Int)
    Relation.ReflTransGen.refl rfl (by decide)).2.2.2.1

/-! ## Claim C4 -/

/-- State reached by: cold load of `5` at time 100, then a scheduled refresh
whose fetch returns a fresh `7` but whose `fs.mkdirSync` throws inside
`saveLocalCache`. -/
def c4state : StoreState Int :=
  loopSchedule exDef (decInflight (applyRefresh exDef (RefreshOutcome.fresh none 7)
    (some ("EACCES")) none 300 (startTick sOk)))

/-- Claim C4 counterexample.  The refresh's fetch succeeded with the fresh
value `7`, but the synchronous part of the persistence step
(`fs.mkdirSync`, and likewise the serializer) throws inside the `try` block,
so the refresh is caught as a failure: status becomes `outdated` (not `ok`),
the in-memory value stays `5` and `lastRefresh` stays at 100. -/
theorem c4_counterexample :
    Reachable exDef c4state ∧ c4state.status = Status.outdated ∧
    getCurrent c4state = some 5 ∧ c4state.lastRefresh = some 100 := by
  refine ⟨?_, by decide, by decide, by decide⟩
  have h1 : Step exDef (initialState Int) sOk :=
    Step.coldDone (initialState Int) (RefreshOutcome.fresh none 5) none none none 0 100 rfl
  have h2 : Step exDef sOk (startTick sOk) := Step.tickStart sOk (by decide) (by decide) (by decide)
  have h3 : Step exDef (startTick sOk) c4state :=
    Step.refreshDone (startTick sOk) (RefreshOutcome.fresh none 7) (some ("EACCES")) none 300
      (by decide)
  exact Relation.ReflTransGen.tail
    (Relation.ReflTransGen.tail (Relation.ReflTransGen.single h1) h2) h3

/-- Claim C4 (amended): only the asynchronous `fs.writeFile` failure is
swallowed; a refresh whose fetch succeeded and whose synchronous persistence
steps do not throw sets status `ok`, replaces the value and stamps
`lastRefresh`, and its result is independent of the asynchronous write
outcome.  But a synchronous persistence failure — `fs.mkdirSync` throwing,
or the serializer throwing — fails that refresh: it is handled like a fetch
failure, the status becomes `outdated` and the value and `lastRefresh` are
left unchanged. -/
theorem c4_amended {T : Type} (d : StoreDefinition T) (lm : Option Nat) (v : T)
    (str : String) (we we2 : Option String) (now : Nat) (s : StoreState T)
    (hser : d.serializer v = some str) :
    ((applyRefresh d (RefreshOutcome.fresh lm v) none we now s).status = Status.ok ∧
     (applyRefresh d (RefreshOutcome.fresh lm v) none we now s).instanceVal = some v ∧
     (applyRefresh d (RefreshOutcome.fresh lm v) none we now s).lastRefresh = some now) ∧
    applyRefresh d (RefreshOutcome.fresh lm v) none we now s =
      applyRefresh d (RefreshOutcome.fresh lm v) none we2 now s ∧
    (∀ mkE : String, d.localDir.isSome = true →
      applyRefresh d (RefreshOutcome.fresh lm v) (some mkE) we now s =
        { s with status := Status.outdated }) ∧
    (∀ v2 : T, d.localDir.isSome = true → d.serializer v2 = none →
      applyRefresh d (RefreshOutcome.fresh lm v2) none we now s =
        { s with status := Status.outdated }) := by
  have hsv : ∀ w : Option String, saveLocalCache d v none w = Except.ok () := by
    intro w
    cases hld : d.localDir with
    | none => simp [saveLocalCache, hld]
    | some dir => simp [saveLocalCache, hld, hser]
  refine ⟨?_, ?_, ?_, ?_⟩
  · refine ⟨?_, ?_, ?_⟩ <;> simp [applyRefresh, hsv]
  · simp [applyRefresh, hsv]
  · intro mkE hdir
    cases hld : d.localDir with
    | none => rw [hld] at hdir; cases hdir
    | some dir => simp [applyRefresh, saveLocalCache, hld]
  · intro v2 hdir hser2
    cases hld : d.localDir with
    | none => rw [hld] at hdir; cases hdir
    | some dir => simp [applyRefresh, saveLocalCache, hld, hser2]

theorem c4_amended_witness :
    (applyRefresh exDef (RefreshOutcome.fresh none 7) none none 400 sOk).status = Status.ok :=
  ((c4_amended exDef none 7 (toString (7 : Int)) none (some ("x")) 400 sOk rfl).1).1

/-! ## Claim C5 -/

/-- Stop the store while a scheduled refresh tick is in flight. -/
def c5stop : StoreState Int := applyStop (startTick sOk)

/-- The in-flight refresh completes with a fresh value after `stop()`. -/
def c5final : StoreState Int :=
  loopSchedule exDef (decInflight (applyRefresh exDef (RefreshOutcome.fresh none 7)
    none none 300 c5stop))

/-- Claim C5 counterexample.  `stop()` runs while a refresh is in flight;
when that refresh completes, the `refresh` body — which never checks
`stopping` — sets status back to `ok`, advances `lastRefresh` from 100 to
300 and replaces the value `5` with `7`.  All three parts of the claim
("status never changes away from `stopped`", "`lastRefresh` never advances
again", "`getCurrent` keeps returning the last value held before stopping")
fail at this reachable state. -/
theorem c5_counterexample :
    Reachable exDef c5stop ∧ c5stop.status = Status.stopped ∧
    getCurrent c5stop = some 5 ∧ c5stop.lastRefresh = some 100 ∧
    Step exDef c5stop c5final ∧
    c5final.status = Status.ok ∧ getCurrent c5final = some 7 ∧
    c5final.lastRefresh = some 300 := by
  refine ⟨?_, by decide, by decide, by decide,
    Step.refreshDone c5stop (RefreshOutcome.fresh none 7) none none 300 (by decide),
    by decide, by decide, by decide⟩
  have h1 : Step exDef (initialState Int) sOk :=
    Step.coldDone (initialState Int) (RefreshOutcome.fresh none 5) none none none 0 100 rfl
  have h2 : Step exDef sOk (startTick sOk) := Step.tickStart sOk (by decide) (by decide) (by decide)
  have h3 : Step exDef (startTick sOk) c5stop := Step.stopCall (startTick sOk)
  exact Relation.ReflTransGen.tail
    (Relation.ReflTransGen.tail (Relation.ReflTransGen.single h1) h2) h3

/-- A loop-mode store definition: `refreshIntervalMillis = 0`, so
`scheduleStoreRefresh` runs the continuous `setTimeout` loop. -/
def exDefLoop : StoreDefinition Int :=
  { refreshIntervalMillis := 0
    name := "profiles-loop"
    serializer := fun v => some (toString v)
    deserializer := fun str => some ((str.length : Int))
    localDir := some ("cachedir") }

/-- Loop-mode cold load of `5` at time 100: the loop immediately schedules
its first timeout. -/
def lOk : StoreState Int :=
  applyCold exDefLoop (RefreshOutcome.fresh none 5) none none
    (loadFromCache exDefLoop none 0) 100 (initialState Int)

/-- `stop()` in loop mode: nothing is cancelled, the scheduled timeout is
still pending and no refresh is in flight. -/
def lStop : StoreState Int := applyStop lOk

/-- The pending timeout fires after `stop()` — its callback does not recheck
the stopping flag — starting a fresh fetch. -/
def lFire : StoreState Int := startTick { lStop with timerPending := false }

/-- The post-stop refresh completes: its result is applied, and only then
does `loop()` observe the stopping flag and refrain from re-scheduling. -/
def lDone : StoreState Int :=
  loopSchedule exDefLoop (decInflight (applyRefresh exDefLoop (RefreshOutcome.fresh none 7)
    none none 300 lFire))

/-- Claim C5 (amended), in two parts matching the two scheduler modes.
Interval mode (`refreshIntervalMillis > 0`): after `stop()` no new tick
starts (the interval is cleared and its callback checks the stopping flag),
so if no refresh was in flight when `stop()` ran and the cold load had
completed, the status stays `stopped` forever, `lastRefresh` never advances
again and `getCurrent()` keeps returning the last value held before
stopping.  Loop mode (`refreshIntervalMillis ≤ 0`): this fails even with
nothing in flight — `stop()` cancels no timer and the pending `setTimeout`
callback invokes the fetch without rechecking the stopping flag, so exactly
one more refresh starts after `stop()` and applies its result (status
regresses to `ok`, `lastRefresh` advances, the value is replaced) before
the loop stops re-scheduling and the fetch log freezes.  In either mode a
refresh already in flight at stop time likewise applies its result
(`c5_counterexample`). -/
theorem c5_amended {T : Type} (d : StoreDefinition T) (s s' : StoreState T)
    (hmode : 0 < d.refreshIntervalMillis)
    (hst : s.status = Status.stopped) (hsp : s.stopping = true)
    (hin : s.inflight = 0) (hcp : s.coldPending = false)
    (hsteps : Relation.ReflTransGen (Step d) s s') :
    (s'.status = Status.stopped ∧ s'.lastRefresh = s.lastRefresh ∧
     s'.instanceVal = s.instanceVal ∧ s'.fetchLog = s.fetchLog) ∧
    (Reachable exDefLoop lStop ∧ lStop.status = Status.stopped ∧
     lStop.inflight = 0 ∧ lStop.timerPending = true ∧
     getCurrent lStop = some 5 ∧ lStop.lastRefresh = some 100 ∧
     Step exDefLoop lStop lFire ∧ Step exDefLoop lFire lDone ∧
     lDone.status = Status.ok ∧ getCurrent lDone = some 7 ∧
     lDone.lastRefresh = some 300 ∧ lDone.timerPending = false ∧
     (∀ s2 : StoreState Int, Relation.ReflTransGen (Step exDefLoop) lDone s2 →
        s2.fetchLog = lDone.fetchLog)) := by
  constructor
  · have key : s'.status = Status.stopped ∧ s'.stopping = true ∧ s'.inflight = 0 ∧
        s'.coldPending = false ∧ s'.lastRefresh = s.lastRefresh ∧
        s'.instanceVal = s.instanceVal ∧ s'.fetchLog = s.fetchLog := by
      induction hsteps with
      | refl => exact ⟨hst, hsp, hin, hcp, rfl, rfl, rfl⟩
      | tail hab hstep ih =>
        obtain ⟨b1, b2, b3, b4, b5, b6, b7⟩ := ih
        cases hstep with
        | coldDone outcome mk we fc mt now hb => rw [b4] at hb; cases hb
        | tickStart hb0 hb1 hb2 => rw [b2] at hb2; cases hb2
        | tickFire hb0 hb1 => exact absurd hb0 (by omega)
        | refreshDone outcome mk we now hb =>
          rw [b3] at hb
          exact absurd hb (by omega)
        | stopCall =>
          exact ⟨by simp [applyStop], by simp [applyStop], by simp [applyStop, b3],
            by simp [applyStop, b4], by simp [applyStop, b5], by simp [applyStop, b6],
            by simp [applyStop, b7]⟩
        | getCall => exact ⟨b1, b2, b3, b4, b5, b6, b7⟩
    exact ⟨key.1, key.2.2.2.2.1, key.2.2.2.2.2.1, key.2.2.2.2.2.2⟩
  · have hcold : Step exDefLoop (initialState Int) lOk :=
      Step.coldDone (initialState Int) (RefreshOutcome.fresh none 5) none none none 0 100 rfl
    have hstopstep : Step exDefLoop lOk lStop := Step.stopCall lOk
    refine ⟨Relation.ReflTransGen.tail (Relation.ReflTransGen.single hcold) hstopstep,
      by decide, by decide, by decide, by decide, by decide,
      Step.tickFire lStop (by decide) (by decide),
      Step.refreshDone lFire (RefreshOutcome.fresh none 7) none none 300 (by decide),
      by decide, by decide, by decide, by decide, ?_⟩
    intro s2 hs2
    exact (loop_dead_frozen (by decide) (by decide) (by decide) (by decide) hs2).2.2.2

theorem c5_amended_witness :
    (applyStop sOk).status = Status.stopped ∧
    (applyStop sOk).lastRefresh = (applyStop sOk).lastRefresh ∧
    (applyStop sOk).instanceVal = (applyStop sOk).instanceVal ∧
    (applyStop sOk).fetchLog = (applyStop sOk).fetchLog :=
  (c5_amended exDef (applyStop sOk) (applyStop sOk) (by decide) (by decide) (by decide)
    (by decide) (by decide) Relation.ReflTransGen.refl).1

/-! ## Claim C6 -/

/-- Claim C6 (confirmed): a scheduled refresh whose fetch returns the
`"not_modified"` sentinel leaves the in-memory value and the last-modified
marker exactly as they were, sets status to `ok`, and stamps `lastRefresh`
to the current time.  (On the first, cold-load call the sentinel instead
throws and takes the cache-fallback path, so this is specific to scheduled
refreshes, which `applyRefresh` embeds.) -/
theorem c6_notModified_frame {T : Type} (d : StoreDefinition T) (mk we : Option String)
    (now : Nat) (s : StoreState T) :
    (applyRefresh d RefreshOutcome.notModified mk we now s).instanceVal = s.instanceVal ∧
    (applyRefresh d RefreshOutcome.notModified mk we now s).lastModified = s.lastModified ∧
    (applyRefresh d RefreshOutcome.notModified mk we now s).status = Status.ok ∧
    (applyRefresh d RefreshOutcome.notModified mk we now s).lastRefresh = some now :=
  ⟨rfl, rfl, rfl, rfl⟩

/-! ## Claim C7 -/

/-- Claim C7 (confirmed): while the cold load is pending, the fetch log is
exactly `[none]` — the fetch operation has been invoked exactly once, by the
promise executor at construction, with no last-modified marker — no matter
how many `get()` calls have been interleaved (each is a state-neutral step),
and every such `get()` observes the pending shared promise.  Once the cold
load completes, the promise state never changes again, so all callers
suspended on it observe the same eventual outcome. -/
theorem c7_cold_single_flight {T : Type} (d : StoreDefinition T) (truthy : T → Bool)
    (s : StoreState T) (hr : Reachable d s) :
    (s.coldPending = true →
      s.fetchLog = [none] ∧ get truthy s = PromiseState.pending) ∧
    (s.coldPending = false →
      ∀ s', Relation.ReflTransGen (Step d) s s' → s'.promise = s.promise) := by
  obtain ⟨i1, i2, i3, i4, i5⟩ := reachable_inv hr
  constructor
  · intro hc
    obtain ⟨ha, hv, hp, hl, hf, ht⟩ := i1 hc
    exact ⟨hl, by simp [get, hv, hp]⟩
  · intro hc s' hsteps
    exact (promise_frozen hc hsteps).1

theorem c7_cold_single_flight_witness :
    (initialState Int).fetchLog = [none] ∧
    get numTruthy (initialState Int) = PromiseState.pending :=
  (c7_cold_single_flight exDef numTruthy (initialState Int)
    Relation.ReflTransGen.refl).1 rfl

/-! ## Claim C8 -/

/-- Claim C8 counterexample.  From the reachable `failed` state, `stop()`
still transitions the status to `stopped`, so "once `failed` is reached no
further status transition occurs" is false as stated. -/
theorem c8_counterexample :
    Reachable exDef sFailed ∧ sFailed.status = Status.failed ∧
    Step exDef sFailed (applyStop sFailed) ∧
    (applyStop sFailed).status = Status.stopped :=
  ⟨sFailed_reachable, by decide, Step.stopCall sFailed, by decide⟩

/-- Claim C8 (amended): a step can newly produce status `failed` only as a
cold-load completion (the cold fetch was still pending) whose `catch`
handler found no usable snapshot — witnessed by the unarmed scheduler and
the rejected promise it leaves behind; in particular a scheduled refresh
never produces `failed` (it only ever sets `ok` or `outdated`).  And from a
reachable `failed` state the only possible status change is `stop()` setting
`stopped` — no refresh-driven transition can occur, since in a `failed`
state the scheduler was never armed and nothing is in flight.  (The original
claim's "first fetch fails" is also too narrow: the cold `catch` handler
also runs when the fetch succeeded but the synchronous persist step threw,
see `c1_counterexample`; and its "no further status transition occurs" is
refuted by `c8_counterexample`.) -/
theorem c8_amended {T : Type} (d : StoreDefinition T) (s s' : StoreState T)
    (hr : Reachable d s) (hstep : Step d s s') :
    (s'.status = Status.failed →
      s.status = Status.failed ∨
        (s.coldPending = true ∧ s'.schedulerArmed = false ∧
          ∃ m, s'.promise = PromiseState.rejected m)) ∧
    (s.status = Status.failed → s'.status = Status.failed ∨ s'.status = Status.stopped) := by
  obtain ⟨i1, i2, i3, i4, i5⟩ := reachable_inv hr
  cases hstep with
  | coldDone outcome mk we fc mt now h =>
    obtain ⟨ha, hv, hp, hl, hf, ht⟩ := i1 h
    constructor
    · intro hfail
      right
      refine ⟨h, ?_⟩
      cases outcome with
      | fresh lm v =>
        cases hsave : saveLocalCache d v mk we with
        | ok u => simp [applyCold, hsave, scheduleStoreRefresh, loopSchedule] at hfail
        | error pe =>
          cases hc : loadFromCache d fc mt with
          | none =>
            rw [hc] at hfail
            refine ⟨by simp [applyCold, hsave, applyColdCatch, hc, ha], ?_⟩
            exact ⟨coldErrMsg d.name pe, by simp [applyCold, hsave, applyColdCatch, hc]⟩
          | some p =>
            rw [hc] at hfail
            obtain ⟨ud, w⟩ := p
            simp [applyCold, hsave, applyColdCatch, scheduleStoreRefresh, loopSchedule] at hfail
      | notModified =>
        cases hc : loadFromCache d fc mt with
        | none =>
          rw [hc] at hfail
          refine ⟨by simp [applyCold, applyColdCatch, ha], ?_⟩
          exact ⟨coldErrMsg d.name ("Not modified. (must never happen on first load)"),
            by simp [applyCold, applyColdCatch]⟩
        | some p =>
          rw [hc] at hfail
          obtain ⟨ud, w⟩ := p
          simp [applyCold, applyColdCatch, scheduleStoreRefresh, loopSchedule] at hfail
      | failure e =>
        cases hc : loadFromCache d fc mt with
        | none =>
          rw [hc] at hfail
          refine ⟨by simp [applyCold, applyColdCatch, ha], ?_⟩
          exact ⟨coldErrMsg d.name e, by simp [applyCold, applyColdCatch]⟩
        | some p =>
          rw [hc] at hfail
          obtain ⟨ud, w⟩ := p
          simp [applyCold, applyColdCatch, scheduleStoreRefresh, loopSchedule] at hfail
    · intro hsf
      rw [(i3 hsf).2.1] at h
      cases h
  | tickStart h0 h1 h2 =>
    constructor
    · intro hfail
      exact Or.inl (by simpa [startTick] using hfail)
    · intro hsf
      exact Or.inl (by simp [startTick, hsf])
  | tickFire h0 h1 =>
    constructor
    · intro hfail
      exact Or.inl (by simpa [startTick] using hfail)
    · intro hsf
      exact Or.inl (by simp [startTick, hsf])
  | refreshDone outcome mk we now hb =>
    constructor
    · intro hfail
      have hsame : (loopSchedule d (decInflight (applyRefresh d outcome mk we now s))).status =
          (applyRefresh d outcome mk we now s).status := rfl
      rw [hsame] at hfail
      rcases applyRefresh_status d outcome mk we now s with hok | hout
      · rw [hok] at hfail; cases hfail
      · rw [hout] at hfail; cases hfail
    · intro hsf
      rw [(i3 hsf).2.2.1] at hb
      exact absurd hb (by omega)
  | stopCall =>
    constructor
    · intro hfail
      simp [applyStop] at hfail
    · intro hsf
      exact Or.inr (by simp [applyStop])
  | getCall => exact ⟨fun hh => Or.inl hh, fun hh => Or.inl hh⟩

theorem c8_amended_witness :
    (applyStop sFailed).status = Status.failed ∨
    (applyStop sFailed).status = Status.stopped :=
  (c8_amended exDef sFailed (applyStop sFailed) sFailed_reachable
    (Step.stopCall sFailed)).2 (by decide)

/-! ## Claim C9 -/

/-- A tick starts after the successful cold load of `5`. -/
def c9tick : StoreState Int := startTick sOk

/-- The scheduled refresh stores the falsy value `0`. -/
def c9zero : StoreState Int :=
  loopSchedule exDef (decInflight (applyRefresh exDef (RefreshOutcome.fresh none 0)
    none none 200 c9tick))

/-- Claim C9 (confirmed): `get()` tests the presence of a value with
JavaScript truthiness (`if (instance)`), not definedness: whenever the held
value is falsy, `get()` returns the original cold-load promise.  Concretely,
after a cold load of `5` and a later refresh that stores `0`, `getCurrent()`
is `0` but `get()` resolves with `5` — the cold-load value, not the current
one. -/
theorem c9_truthiness :
    (∀ (T : Type) (truthy : T → Bool) (s : StoreState T) (v : T),
      s.instanceVal = some v → truthy v = false → get truthy s = s.promise) ∧
    (Reachable exDef c9zero ∧ getCurrent c9zero = some 0 ∧
      c9zero.promise = PromiseState.resolved 5 ∧
      get numTruthy c9zero = PromiseState.resolved 5) := by
  constructor
  · intro T truthy s v hv ht
    simp [get, hv, ht]
  · refine ⟨?_, by decide, by decide, by decide⟩
    have h1 : Step exDef (initialState Int) sOk :=
      Step.coldDone (initialState Int) (RefreshOutcome.fresh none 5) none none none 0 100 rfl
    have h2 : Step exDef sOk c9tick := Step.tickStart sOk (by decide) (by decide) (by decide)
    have h3 : Step exDef c9tick c9zero :=
      Step.refreshDone c9tick (RefreshOutcome.fresh none 0) none none 200 (by decide)
    exact Relation.ReflTransGen.tail
      (Relation.ReflTransGen.tail (Relation.ReflTransGen.single h1) h2) h3

theorem c9_truthiness_witness :
    c9zero.instanceVal = some 0 ∧ numTruthy 0 = false ∧
    get numTruthy c9zero = c9zero.promise :=
  ⟨by decide, by decide, c9_truthiness.1 Int numTruthy c9zero 0 (by decide) (by decide)⟩

/-! ## Claim C10 -/

theorem hexDigitChar_isHex (m : Nat) : isHexDigitChar (hexDigitChar m) = true := by
  have key : ∀ r < 16, isHexDigitChar (hexDigits.getD r '0') = true := by decide
  exact key (m % 16) (Nat.mod_lt _ (by norm_num))

theorem take8_digest (t : Nat × Nat × Nat × Nat × Nat × Nat × Nat × Nat) :
    (digestChars t).take 8 = wordHexChars t.1 := by
  obtain ⟨a, b, c, d, e, f, g, h⟩ := t
  rfl

theorem takeWhile_hex_all (l : List Char) (h : ∀ c ∈ l, isHexDigitChar c = true) :
    l.takeWhile isHexDigitChar = l := by
  induction l with
  | nil => rfl
  | cons c cs ih =>
    rw [List.takeWhile_cons, h c (List.mem_cons_self c cs), if_pos rfl]
    rw [ih (fun x hx => h x (List.mem_cons_of_mem c hx))]

theorem wordHex_all_hex (a : Nat) : ∀ c ∈ wordHexChars a, isHexDigitChar c = true := by
  intro c hc
  simp only [wordHexChars, List.mem_cons, List.not_mem_nil, or_false] at hc
  rcases hc with h | h | h | h | h | h | h | h <;> rw [h] <;> exact hexDigitChar_isHex _

theorem jsParseIntHex_wordHex (a : Nat) : (jsParseIntHex (wordHexChars a)).isSome = true := by
  simp only [jsParseIntHex]
  rw [takeWhile_hex_all (wordHexChars a) (wordHex_all_hex a)]
  rw [show (wordHexChars a).isEmpty = false from rfl]
  rfl

/-- Claim C10 (confirmed): for every string input, `int32Hash` returns a
(non-negative, being a `Nat`) integer strictly below
`idHash32MaxValue = 2147483647` — the hex digest always provides eight hex
characters, so `parseInt` never yields `NaN`, and the JavaScript `%` of a
non-negative number is its mathematical remainder — and it is deterministic:
equal inputs always yield equal outputs. -/
theorem c10_int32Hash_range :
    ∀ value : String,
      (∃ n, int32Hash value = some n ∧ n < idHash32MaxValue) ∧
      (∀ other : String, value = other → int32Hash value = int32Hash other) := by
  intro value
  constructor
  · have h8 : ((sha256hex value).toList.take 8) = wordHexChars (sha256words value).1 := by
      have hdc : (sha256hex value).toList = digestChars (sha256words value) := rfl
      rw [hdc, take8_digest]
    have hs : (jsParseIntHex ((sha256hex value).toList.take 8)).isSome = true := by
      rw [h8]
      exact jsParseIntHex_wordHex _
    obtain ⟨n, hn⟩ := Option.isSome_iff_exists.mp hs
    refine ⟨n % idHash32MaxValue, ?_, ?_⟩
    · unfold int32Hash
      rw [hn]
    · exact Nat.mod_lt _ (by norm_num [idHash32MaxValue])
  · intro other hoe
    rw [hoe]

theorem c10_int32Hash_range_witness :
    ("abc" : String) = "abc" ∧ int32Hash ("abc") = int32Hash ("abc") :=
  ⟨rfl, (c10_int32Hash_range ("abc")).2 ("abc") rfl⟩

end InMem


